import Mathlib

/-!
Verification of the Happie local-agent core against its specification.

The definitions below are a shallow embedding of the Python sources:
  * `src/backend/hapie/policy/engine.py`   (PolicyEngine)
  * `src/backend/hapie/models/manager.py`  (ModelManager over a SQLAlchemy session)
  * `src/backend/hapie/models/inference.py` (InferenceEngine)
Python floats are modelled as rationals (ℚ); `Optional[float]` as `Option ℚ`;
SQLAlchemy rows as a Lean structure, the `models` table as a `List` in query
order (`.first()` = first matching element); `session.close()` without a
prior `commit()` rolls the transaction back, which is modelled by returning
the original state on the uncommitted paths.
-/

/-! ## Hardware model (`hapie/hardware/detector.py`) -/

/-- `GPUVendor` enumeration from `hardware/detector.py`. -/
inductive GPUVendor where
  | nvidia
  | amd
  | intel
  | none
deriving DecidableEq, Repr

/-- `SystemCapability` dataclass from `hardware/detector.py`.
RAM and VRAM sizes (Python floats) are modelled as rationals. -/
structure SystemCapability where
  cpu_cores : Nat
  cpu_threads : Nat
  cpu_arch : String
  cpu_brand : String
  total_ram_gb : ℚ
  available_ram_gb : ℚ
  gpu_vendor : GPUVendor
  gpu_name : Option String
  gpu_vram_gb : Option ℚ
  gpu_count : Nat
  platform_system : String
  platform_release : String
deriving DecidableEq, Repr

/-! ## Policy engine (`hapie/policy/engine.py`) -/

/-- `BackendType` enumeration from `policy/engine.py`. -/
inductive BackendType where
  | cpu
  | cuda
  | onnx_gpu
  | metal
deriving DecidableEq, Repr

/-- `ExecutionPolicy` dataclass from `policy/engine.py`. -/
structure ExecutionPolicy where
  backend : BackendType
  max_batch_size : Nat
  max_context_length : Nat
  use_quantization : Bool
  quantization_bits : Nat
  gpu_layers : Nat
  max_threads : Nat
deriving DecidableEq, Repr

/-- Python truthiness of an `Optional[float]` value (`None` and `0.0` are
falsy, every other float is truthy); used for `capability.gpu_vram_gb`
in `_select_backend` and `evaluate`. -/
def optFloatTruthy (v : Option ℚ) : Bool :=
  match v with
  | Option.none => false
  | Option.some x => decide (x ≠ 0)

namespace PolicyEngine

/-- `PolicyEngine._select_backend`. -/
def select_backend (c : SystemCapability) : BackendType :=
  if c.gpu_vendor = GPUVendor.nvidia ∧ optFloatTruthy c.gpu_vram_gb = true then
    BackendType.cuda
  else if c.gpu_vendor = GPUVendor.amd ∨ c.gpu_vendor = GPUVendor.intel then
    BackendType.cpu
  else
    BackendType.cpu

/-- `PolicyEngine._cuda_policy`. `capability.gpu_vram_gb or 0` coincides with
`Option.getD` (both yield `0` for `None` and for `0.0`). -/
def cuda_policy (c : SystemCapability) : ExecutionPolicy :=
  let vram_gb := c.gpu_vram_gb.getD 0
  if 8 ≤ vram_gb then
    { backend := BackendType.cuda
      max_batch_size := 8
      max_context_length := 4096
      use_quantization := false
      quantization_bits := 16
      gpu_layers := 999
      max_threads := c.cpu_threads }
  else if 4 ≤ vram_gb then
    { backend := BackendType.cuda
      max_batch_size := 4
      max_context_length := 2048
      use_quantization := true
      quantization_bits := 8
      gpu_layers := 20
      max_threads := c.cpu_threads }
  else
    { backend := BackendType.cuda
      max_batch_size := 2
      max_context_length := 2048
      use_quantization := true
      quantization_bits := 4
      gpu_layers := 10
      max_threads := c.cpu_threads }

/-- `PolicyEngine._cpu_policy`. -/
def cpu_policy (c : SystemCapability) : ExecutionPolicy :=
  let ram_gb := c.available_ram_gb
  if 16 ≤ ram_gb then
    { backend := BackendType.cpu
      max_batch_size := 2
      max_context_length := 4096
      use_quantization := true
      quantization_bits := 8
      gpu_layers := 0
      max_threads := min c.cpu_threads 8 }
  else if 8 ≤ ram_gb then
    { backend := BackendType.cpu
      max_batch_size := 1
      max_context_length := 2048
      use_quantization := true
      quantization_bits := 4
      gpu_layers := 0
      max_threads := min c.cpu_threads 4 }
  else
    { backend := BackendType.cpu
      max_batch_size := 1
      max_context_length := 1024
      use_quantization := true
      quantization_bits := 4
      gpu_layers := 0
      max_threads := min c.cpu_threads 2 }

/-- `PolicyEngine.evaluate`. -/
def evaluate (c : SystemCapability) : ExecutionPolicy :=
  let backend := select_backend c
  if backend = BackendType.cuda ∧ optFloatTruthy c.gpu_vram_gb = true then
    cuda_policy c
  else
    cpu_policy c

end PolicyEngine

/-! ## Model registry (`hapie/db/models.py` and `hapie/models/manager.py`)

The `models` table is modelled as a `List DBModel` in query order, so that
SQLAlchemy's `.first()` is the first matching element. `session.close()`
without `commit()` rolls back, so uncommitted paths return the input state. -/

/-- A row of the `models` table (`db/models.py`, class `Model`); nullable
string columns are modelled as `String` with `""` for NULL, and the open
JSON metadata column as an association list. -/
structure DBModel where
  id : String
  name : String
  type : String
  provider : String
  size_mb : ℚ
  backend : String
  is_active : Bool
  is_base_model : Bool
  model_path : String
  metadata_json : List (String × String)
  created_at : Nat
deriving DecidableEq, Repr

/-- The bulk `UPDATE` setting `is_active = False` on every row
(first statement of `ModelManager.set_active_model`). -/
def deactivateAll (s : List DBModel) : List DBModel :=
  s.map (fun r => { r with is_active := false })

/-- Set `is_active := true` on the first row matching the id
(the `.filter(id == model_id).first()` + `model.is_active = True` part of
`ModelManager.set_active_model`); `Option.none` when no row matches. -/
def activateFirst : List DBModel → String → Option (List DBModel)
  | [], _ => Option.none
  | r :: rest, model_id =>
    if r.id == model_id then
      Option.some ({ r with is_active := true } :: rest)
    else
      (activateFirst rest model_id).map (fun rest2 => r :: rest2)

/-- `ModelManager.set_active_model`: deactivate every row, then activate the
target and commit; if the id is unknown the transaction is never committed,
so closing the session rolls the bulk update back and the state is
unchanged. Returns (result, final table state). -/
def set_active_model (s : List DBModel) (model_id : String) :
    Bool × List DBModel :=
  match activateFirst (deactivateAll s) model_id with
  | Option.some s2 => (true, s2)
  | Option.none => (false, s)

/-- `ModelManager.register_model`: if a row with this id exists it is
returned unchanged and nothing is written; otherwise a new row is inserted
with `is_active` left at its column default `False`. `created_at` stands
for the column's default timestamp. Returns (returned record, table). -/
def register_model (s : List DBModel) (model_id nm model_type provider
    backend model_path : String) (size_mb : ℚ) (is_base_model : Bool)
    (metadata : List (String × String)) (created_at : Nat) :
    DBModel × List DBModel :=
  match s.find? (fun r => r.id == model_id) with
  | Option.some existing => (existing, s)
  | Option.none =>
    let m : DBModel :=
      { id := model_id, name := nm, type := model_type,
        provider := provider, size_mb := size_mb, backend := backend,
        is_active := false, is_base_model := is_base_model,
        model_path := model_path, metadata_json := metadata,
        created_at := created_at }
    (m, s ++ [m])

/-- Outcome of `ModelManager.remove_model`: `notFound` is the `return False`
path, `invalidState` the `raise ValueError("Cannot remove base model")`
path, and `removed` carries the artifact path deleted from disk
(`Option.none` when the record was not a local file). -/
inductive RemoveOutcome where
  | notFound
  | invalidState
  | removed (deletedArtifact : Option String)
deriving DecidableEq, Repr

/-- `ModelManager.remove_model`; `fsExists` stands for
`Path(...).exists()`. The base-model check runs before any file deletion
and before the row delete, so both error paths leave the table untouched. -/
def remove_model (fsExists : String → Bool) (s : List DBModel)
    (model_id : String) : RemoveOutcome × List DBModel :=
  match s.find? (fun r => r.id == model_id) with
  | Option.none => (RemoveOutcome.notFound, s)
  | Option.some m =>
    if m.is_base_model then
      (RemoveOutcome.invalidState, s)
    else
      let deleted :=
        if m.type == "local" && !(m.model_path == "") && fsExists m.model_path
        then Option.some m.model_path else Option.none
      (RemoveOutcome.removed deleted, s.eraseP (fun r => r.id == model_id))

/-- The registry invariant: at most one row has `is_active = true`. -/
def atMostOneActive (s : List DBModel) : Prop :=
  s.countP (fun r => r.is_active) ≤ 1

instance (s : List DBModel) : Decidable (atMostOneActive s) := by
  unfold atMostOneActive
  infer_instance

/-! ## Inference engine (`hapie/models/inference.py`)

The `llama_cpp.Llama` runtime is external: a constructed handle is modelled
as an opaque `Nat`, the result of calling a loaded model on a prompt is the
`LlamaOutput` argument, and the two `time.time()` reads around the call are
the `start_time`/`end_time` arguments (rationals standing for floats). -/

/-- The fields of the `llama_cpp` call result that `generate` reads:
`output["choices"][0]["text"]` and `output["usage"]["completion_tokens"]`. -/
structure LlamaOutput where
  text : String
  completion_tokens : Nat
deriving DecidableEq, Repr

/-- The metrics dictionary of a non-streaming `generate` response. -/
structure GenMetrics where
  latency_ms : ℚ
  tokens_generated : Nat
  tokens_per_sec : ℚ
deriving DecidableEq, Repr

/-- Result of `InferenceEngine.generate`: the `raise ValueError` path, the
streaming-generator path, or a complete response with metrics. -/
inductive GenReturn where
  | notLoaded (msg : String)
  | streaming (start_time : ℚ)
  | result (text : String) (metrics : GenMetrics)
deriving DecidableEq, Repr

/-- `InferenceEngine` state: the `_loaded_models` dict as an association
list from model id to an opaque runtime handle, in insertion order. -/
structure InferenceEngine where
  loaded_models : List (String × Nat)
deriving DecidableEq, Repr

/-- `InferenceEngine.is_loaded`: membership of the id in `_loaded_models`. -/
def is_loaded (eng : InferenceEngine) (model_id : String) : Bool :=
  (eng.loaded_models.find? (fun p => p.1 == model_id)).isSome

/-- `InferenceEngine.load_model`: no-op when already loaded, otherwise the
externally constructed handle is stored under the id. -/
def load_model (eng : InferenceEngine) (handle : Nat) (model_id : String) :
    InferenceEngine :=
  if is_loaded eng model_id then eng
  else { loaded_models := eng.loaded_models ++ [(model_id, handle)] }

/-- `InferenceEngine.unload_model`: drop the id's entry if present. -/
def unload_model (eng : InferenceEngine) (model_id : String) :
    InferenceEngine :=
  { loaded_models := eng.loaded_models.filter (fun p => !(p.1 == model_id)) }

/-- Python's `round(x, 2)`, rounding to a multiple of 1/100 (the tie-break
direction is irrelevant to the claims below). -/
def round2 (q : ℚ) : ℚ := (round (q * 100) : ℚ) / 100

/-- `InferenceEngine.generate`: raises "Model ... not loaded" when the id
has no handle; otherwise returns the streaming generator or the complete
response, computing `tokens_per_sec` as `0` unless `end_time > start_time`.
The engine state is returned unchanged on every path, as the method never
touches `_loaded_models`. -/
def generate (eng : InferenceEngine) (model_id : String)
    (output : LlamaOutput) (start_time end_time : ℚ) (stream : Bool) :
    GenReturn × InferenceEngine :=
  if is_loaded eng model_id then
    if stream then
      (GenReturn.streaming start_time, eng)
    else
      let latency_ms := (end_time - start_time) * 1000
      let tokens_generated := output.completion_tokens
      let tokens_per_sec : ℚ :=
        if start_time < end_time then
          (tokens_generated : ℚ) / (end_time - start_time)
        else 0
      (GenReturn.result output.text
        { latency_ms := round2 latency_ms
          tokens_generated := tokens_generated
          tokens_per_sec := round2 tokens_per_sec }, eng)
  else
    (GenReturn.notLoaded ("Model " ++ model_id ++ " not loaded"), eng)

/-! ## Streaming download monitor (`ModelManager.pull_model_stream`)

The events an async generator run yields, as a function of the external
observations the monitor loop makes. One element of `polls` per iteration
of `while not future.done()`: the pair is `(future.done(), cancel flag set
for this model id)`, read in that order; an exhausted list means the future
was done at that check. `ok` tells whether `await future` then succeeds. -/

/-- One yielded progress event, keyed by its `status` and, for the two
error-status events, by which error it is: `cancelled` is the
`status = "error", error = "Download cancelled"` event yielded when the
cancel flag is observed; `failed` is the error event of a failed
download. -/
inductive StreamEvent where
  | downloading
  | complete
  | cancelled
  | failed
deriving DecidableEq, Repr

/-- The monitor loop of `pull_model_stream` plus the terminal yield after
it: each iteration first exits if the future is done, then yields the
cancelled event and returns if the flag is observed, else yields one
downloading progress event and polls again. -/
def monitorLoop : List (Bool × Bool) → Bool → List StreamEvent
  | [], ok => [if ok then StreamEvent.complete else StreamEvent.failed]
  | (futureDone, cancelFlag) :: rest, ok =>
    if futureDone then
      [if ok then StreamEvent.complete else StreamEvent.failed]
    else if cancelFlag then
      [StreamEvent.cancelled]
    else
      StreamEvent.downloading :: monitorLoop rest ok

/-- `ModelManager.pull_model_stream`, as the full sequence of yielded
events: the initial progress-0 downloading yield, then the monitor loop. -/
def pull_model_stream (polls : List (Bool × Bool)) (ok : Bool) :
    List StreamEvent :=
  StreamEvent.downloading :: monitorLoop polls ok

/-- Whether the monitor loop observes the cancel flag during the run:
it must reach an iteration where the future is not yet done and the flag
is set. -/
def cancelObserved : List (Bool × Bool) → Bool
  | [] => false
  | (futureDone, cancelFlag) :: rest =>
    if futureDone then false
    else if cancelFlag then true
    else cancelObserved rest

/-- Terminal events of the stream: everything except a downloading
progress event. -/
def isTerminalEvent (e : StreamEvent) : Bool :=
  match e with
  | StreamEvent.downloading => false
  | _ => true

/-! ## Claims about the policy engine -/

/-- C1: Tier boundaries of the policy resolver are inclusive lower cut
points: with an NVIDIA GPU, VRAM exactly 8 GB yields the
full-offload/no-quantization tier and VRAM exactly 4 GB yields the
8-bit/partial-offload tier; for CPU policies, available RAM exactly 16 GB
yields the high-RAM tier and exactly 8 GB yields the medium-RAM tier. -/
theorem policy_tier_boundaries_inclusive (c : SystemCapability) :
    (c.gpu_vendor = GPUVendor.nvidia → c.gpu_vram_gb = Option.some 8 →
      PolicyEngine.evaluate c =
        { backend := BackendType.cuda, max_batch_size := 8,
          max_context_length := 4096, use_quantization := false,
          quantization_bits := 16, gpu_layers := 999,
          max_threads := c.cpu_threads }) ∧
    (c.gpu_vendor = GPUVendor.nvidia → c.gpu_vram_gb = Option.some 4 →
      PolicyEngine.evaluate c =
        { backend := BackendType.cuda, max_batch_size := 4,
          max_context_length := 2048, use_quantization := true,
          quantization_bits := 8, gpu_layers := 20,
          max_threads := c.cpu_threads }) ∧
    (c.available_ram_gb = 16 →
      PolicyEngine.cpu_policy c =
        { backend := BackendType.cpu, max_batch_size := 2,
          max_context_length := 4096, use_quantization := true,
          quantization_bits := 8, gpu_layers := 0,
          max_threads := min c.cpu_threads 8 }) ∧
    (c.available_ram_gb = 8 →
      PolicyEngine.cpu_policy c =
        { backend := BackendType.cpu, max_batch_size := 1,
          max_context_length := 2048, use_quantization := true,
          quantization_bits := 4, gpu_layers := 0,
          max_threads := min c.cpu_threads 4 }) := by
  refine ⟨?_, ?_, ?_, ?_⟩
  · intro hv hr
    simp [PolicyEngine.evaluate, PolicyEngine.select_backend,
      PolicyEngine.cuda_policy, optFloatTruthy, hv, hr]
  · intro hv hr
    simp [PolicyEngine.evaluate, PolicyEngine.select_backend,
      PolicyEngine.cuda_policy, optFloatTruthy, hv, hr]
    norm_num
  · intro hr
    simp [PolicyEngine.cpu_policy, hr]
  · intro hr
    simp [PolicyEngine.cpu_policy, hr]
    norm_num

/-- Witness for C1 at a concrete capability with VRAM 8, VRAM 4,
RAM 16 and RAM 8. -/
theorem policy_tier_boundaries_inclusive_witness :
    (PolicyEngine.evaluate
        ⟨4, 8, "x86_64", "cpu0", 32, 24, GPUVendor.nvidia,
         Option.some "rtx", Option.some 8, 1, "Linux", "6.1"⟩ =
      { backend := BackendType.cuda, max_batch_size := 8,
        max_context_length := 4096, use_quantization := false,
        quantization_bits := 16, gpu_layers := 999, max_threads := 8 }) ∧
    (PolicyEngine.evaluate
        ⟨4, 8, "x86_64", "cpu0", 32, 24, GPUVendor.nvidia,
         Option.some "rtx", Option.some 4, 1, "Linux", "6.1"⟩ =
      { backend := BackendType.cuda, max_batch_size := 4,
        max_context_length := 2048, use_quantization := true,
        quantization_bits := 8, gpu_layers := 20, max_threads := 8 }) ∧
    (PolicyEngine.cpu_policy
        ⟨4, 8, "x86_64", "cpu0", 32, 16, GPUVendor.none,
         Option.none, Option.none, 0, "Linux", "6.1"⟩ =
      { backend := BackendType.cpu, max_batch_size := 2,
        max_context_length := 4096, use_quantization := true,
        quantization_bits := 8, gpu_layers := 0, max_threads := 8 }) ∧
    (PolicyEngine.cpu_policy
        ⟨4, 8, "x86_64", "cpu0", 32, 8, GPUVendor.none,
         Option.none, Option.none, 0, "Linux", "6.1"⟩ =
      { backend := BackendType.cpu, max_batch_size := 1,
        max_context_length := 2048, use_quantization := true,
        quantization_bits := 4, gpu_layers := 0, max_threads := 4 }) :=
  ⟨(policy_tier_boundaries_inclusive _).1 rfl rfl,
   ((policy_tier_boundaries_inclusive _).2).1 rfl rfl,
   ((policy_tier_boundaries_inclusive _).2).2.1 rfl,
   ((policy_tier_boundaries_inclusive _).2).2.2 rfl⟩

/-- C8: with no GPU and available RAM below 8 GB, the resolver returns the
low-RAM CPU policy: backend cpu, 4-bit quantization, context 1024,
batch 1, 0 GPU layers, threads = min(cpu_threads, 2). -/
theorem cpu_low_ram_policy (c : SystemCapability)
    (hv : c.gpu_vendor = GPUVendor.none) (hr : c.available_ram_gb < 8) :
    PolicyEngine.evaluate c =
      { backend := BackendType.cpu, max_batch_size := 1,
        max_context_length := 1024, use_quantization := true,
        quantization_bits := 4, gpu_layers := 0,
        max_threads := min c.cpu_threads 2 } := by
  have h16 : ¬ (16 ≤ c.available_ram_gb) := by linarith
  have h8 : ¬ (8 ≤ c.available_ram_gb) := by linarith
  simp [PolicyEngine.evaluate, PolicyEngine.select_backend,
    PolicyEngine.cpu_policy, hv, h16, h8]

/-- Witness for C8: the spec's end-to-end scenario B, with
gpu_vendor = none and available_ram_gb = 6. -/
theorem cpu_low_ram_policy_witness :
    PolicyEngine.evaluate
        ⟨4, 8, "x86_64", "cpu0", 16, 6, GPUVendor.none,
         Option.none, Option.none, 0, "Linux", "6.1"⟩ =
      { backend := BackendType.cpu, max_batch_size := 1,
        max_context_length := 1024, use_quantization := true,
        quantization_bits := 4, gpu_layers := 0, max_threads := 2 } :=
  cpu_low_ram_policy _ rfl (by norm_num)

/-- C10: an NVIDIA capability whose VRAM is None or exactly 0 does not get
the cuda backend: backend selection falls through to cpu and the resolver
returns the CPU policy. -/
theorem nvidia_no_vram_cpu_fallback (c : SystemCapability)
    (hv : c.gpu_vendor = GPUVendor.nvidia)
    (hr : c.gpu_vram_gb = Option.none ∨ c.gpu_vram_gb = Option.some 0) :
    PolicyEngine.select_backend c = BackendType.cpu ∧
    PolicyEngine.evaluate c = PolicyEngine.cpu_policy c ∧
    (PolicyEngine.evaluate c).backend = BackendType.cpu := by
  have htruthy : optFloatTruthy c.gpu_vram_gb = false := by
    rcases hr with h | h <;> simp [optFloatTruthy, h]
  have hsel : PolicyEngine.select_backend c = BackendType.cpu := by
    simp [PolicyEngine.select_backend, hv, htruthy]
  have heval : PolicyEngine.evaluate c = PolicyEngine.cpu_policy c := by
    simp [PolicyEngine.evaluate, hsel, htruthy]
  refine ⟨hsel, heval, ?_⟩
  rw [heval]
  simp only [PolicyEngine.cpu_policy]
  split
  · rfl
  · split <;> rfl

/-- Witness for C10 at an NVIDIA capability with VRAM reported as 0. -/
theorem nvidia_no_vram_cpu_fallback_witness :
    PolicyEngine.select_backend
        ⟨4, 8, "x86_64", "cpu0", 32, 24, GPUVendor.nvidia,
         Option.some "rtx", Option.some 0, 1, "Linux", "6.1"⟩ =
      BackendType.cpu ∧
    PolicyEngine.evaluate
        ⟨4, 8, "x86_64", "cpu0", 32, 24, GPUVendor.nvidia,
         Option.some "rtx", Option.some 0, 1, "Linux", "6.1"⟩ =
      PolicyEngine.cpu_policy
        ⟨4, 8, "x86_64", "cpu0", 32, 24, GPUVendor.nvidia,
         Option.some "rtx", Option.some 0, 1, "Linux", "6.1"⟩ ∧
    (PolicyEngine.evaluate
        ⟨4, 8, "x86_64", "cpu0", 32, 24, GPUVendor.nvidia,
         Option.some "rtx", Option.some 0, 1, "Linux", "6.1"⟩).backend =
      BackendType.cpu :=
  nvidia_no_vram_cpu_fallback _ rfl (Or.inr rfl)

/-! ## Claims about the model registry -/

/-- C4: `set_active_model` on an id not present in the registry returns
`false` and leaves the table — every record and its `is_active` flag —
unchanged (the uncommitted bulk deactivation is rolled back). -/
theorem set_active_unknown_id_silent (s : List DBModel) (model_id : String)
    (h : ∀ r ∈ s, r.id ≠ model_id) :
    set_active_model s model_id = (false, s) := by
  have hnone : ∀ d : List DBModel, (∀ r ∈ d, r.id ≠ model_id) →
      activateFirst d model_id = Option.none := by
    intro d
    induction d with
    | nil => intro _; rfl
    | cons r rest ih =>
      intro hd
      have hr : r.id ≠ model_id := hd r (List.mem_cons_self r rest)
      have hrest := ih (fun x hx => hd x (List.mem_cons_of_mem r hx))
      simp [activateFirst, hr, hrest]
  have hdeact : ∀ r ∈ deactivateAll s, r.id ≠ model_id := by
    intro r hr
    rcases List.mem_map.mp hr with ⟨a, ha, rfl⟩
    exact h a ha
  unfold set_active_model
  rw [hnone (deactivateAll s) hdeact]

/-- Witness for C4: the spec's scenario C, a registry holding one inactive
record "m1"; setting "missing" active returns false and leaves it alone. -/
theorem set_active_unknown_id_silent_witness :
    set_active_model
        [{ id := "m1", name := "m1", type := "local", provider := "hf",
           size_mb := 10, backend := "llama.cpp", is_active := false,
           is_base_model := false, model_path := "/m1.gguf",
           metadata_json := [], created_at := 0 }] "missing" =
      (false,
       [{ id := "m1", name := "m1", type := "local", provider := "hf",
          size_mb := 10, backend := "llama.cpp", is_active := false,
          is_base_model := false, model_path := "/m1.gguf",
          metadata_json := [], created_at := 0 }]) :=
  set_active_unknown_id_silent _ "missing" (by decide)

/-- C5: removing a base model fails with the distinguished invalid-state
error (`ValueError("Cannot remove base model")`), the table is unchanged —
the record is still present with all fields intact — and no artifact is
deleted from disk. -/
theorem remove_base_model_protected (fsE : String → Bool)
    (s : List DBModel) (model_id : String) (m : DBModel)
    (hfind : s.find? (fun r => r.id == model_id) = Option.some m)
    (hbase : m.is_base_model = true) :
    remove_model fsE s model_id = (RemoveOutcome.invalidState, s) ∧
    m ∈ (remove_model fsE s model_id).2 := by
  have hres : remove_model fsE s model_id = (RemoveOutcome.invalidState, s) := by
    unfold remove_model
    rw [hfind]
    simp [hbase]
  exact ⟨hres, hres ▸ List.mem_of_find?_eq_some hfind⟩

/-- Witness for C5 on a one-record registry whose record is a base model. -/
theorem remove_base_model_protected_witness :
    remove_model (fun _ => true)
        [{ id := "base", name := "base", type := "local", provider := "hf",
           size_mb := 10, backend := "llama.cpp", is_active := true,
           is_base_model := true, model_path := "/base.gguf",
           metadata_json := [], created_at := 0 }] "base" =
      (RemoveOutcome.invalidState,
       [{ id := "base", name := "base", type := "local", provider := "hf",
          size_mb := 10, backend := "llama.cpp", is_active := true,
          is_base_model := true, model_path := "/base.gguf",
          metadata_json := [], created_at := 0 }]) ∧
    ({ id := "base", name := "base", type := "local", provider := "hf",
       size_mb := 10, backend := "llama.cpp", is_active := true,
       is_base_model := true, model_path := "/base.gguf",
       metadata_json := [], created_at := 0 } : DBModel) ∈
      (remove_model (fun _ => true)
        [{ id := "base", name := "base", type := "local", provider := "hf",
           size_mb := 10, backend := "llama.cpp", is_active := true,
           is_base_model := true, model_path := "/base.gguf",
           metadata_json := [], created_at := 0 }] "base").2 :=
  remove_base_model_protected _ _ "base" _ (by decide) rfl

/-- The bulk deactivation leaves no active row. -/
theorem countP_deactivateAll (s : List DBModel) :
    (deactivateAll s).countP (fun r => r.is_active) = 0 := by
  induction s with
  | nil => rfl
  | cons r rest _ => simp [deactivateAll, List.countP_cons]

/-- Activating the first matching row adds at most one active row. -/
theorem countP_activateFirst (mid : String) :
    ∀ d d2 : List DBModel, activateFirst d mid = Option.some d2 →
      d2.countP (fun r => r.is_active) ≤
        d.countP (fun r => r.is_active) + 1 := by
  intro d
  induction d with
  | nil => intro d2 h; simp [activateFirst] at h
  | cons a rest ih =>
    intro d2 h
    simp only [activateFirst] at h
    by_cases ha : a.id == mid
    · rw [if_pos ha] at h
      cases Option.some.inj h
      simp [List.countP_cons]
    · rw [if_neg ha] at h
      rcases Option.map_eq_some'.mp h with ⟨rest2, hrest, hd2⟩
      subst hd2
      have := ih rest2 hrest
      simp only [List.countP_cons]
      omega

/-- Erasing a row never increases the number of rows satisfying `p`. -/
theorem countP_eraseP_le (p q : DBModel → Bool) (s : List DBModel) :
    (s.eraseP q).countP p ≤ s.countP p := by
  induction s with
  | nil => simp
  | cons a rest ih =>
    rw [List.eraseP_cons]
    by_cases hq : q a
    · simp only [hq, cond_true, List.countP_cons]
      omega
    · simp only [hq, cond_false, List.countP_cons]
      omega

/-- Deactivation does not change the ids, in order. -/
theorem map_id_deactivateAll (s : List DBModel) :
    (deactivateAll s).map (fun r => r.id) = s.map (fun r => r.id) := by
  induction s with
  | nil => rfl
  | cons a rest _ => simp [deactivateAll]

/-- On an all-inactive table with unique ids, activating the first row
matching `mid` makes exactly the row with id `mid` active. -/
theorem activateFirst_exact (mid : String) :
    ∀ d d2 : List DBModel,
      (∀ r ∈ d, r.is_active = false) →
      (d.map (fun r => r.id)).Nodup →
      activateFirst d mid = Option.some d2 →
      (∃ r ∈ d2, r.id = mid ∧ r.is_active = true) ∧
      ∀ r ∈ d2, (r.is_active = true ↔ r.id = mid) := by
  intro d
  induction d with
  | nil => intro d2 _ _ h; simp [activateFirst] at h
  | cons a rest ih =>
    intro d2 hall hnd h
    have hnd' : a.id ∉ rest.map (fun r => r.id) ∧
        (rest.map (fun r => r.id)).Nodup := by
      simpa [List.nodup_cons] using hnd
    simp only [activateFirst] at h
    by_cases ha : a.id == mid
    · have haid : a.id = mid := by simpa using ha
      rw [if_pos ha] at h
      cases Option.some.inj h
      refine ⟨⟨{ a with is_active := true }, List.mem_cons_self _ _, haid, rfl⟩, ?_⟩
      intro r hr
      rcases List.mem_cons.mp hr with rfl | hr
      · simpa using haid
      · have hract : r.is_active = false := hall r (List.mem_cons_of_mem a hr)
        have hrid : r.id ≠ mid := by
          intro hcontra
          exact hnd'.1 (List.mem_map.mpr ⟨r, hr, by rw [hcontra, haid]⟩)
        simp [hract, hrid]
    · have haid : a.id ≠ mid := by simpa using ha
      rw [if_neg ha] at h
      rcases Option.map_eq_some'.mp h with ⟨rest2, hrest, hd2⟩
      subst hd2
      have hallrest : ∀ r ∈ rest, r.is_active = false :=
        fun r hr => hall r (List.mem_cons_of_mem a hr)
      obtain ⟨⟨r0, hr0, hr0id, hr0act⟩, hiff⟩ := ih rest2 hallrest hnd'.2 hrest
      refine ⟨⟨r0, List.mem_cons_of_mem a hr0, hr0id, hr0act⟩, ?_⟩
      intro r hr
      rcases List.mem_cons.mp hr with rfl | hr
      · have hract : r.is_active = false := hall r (List.mem_cons_self r rest)
        simp [hract, haid]
      · exact hiff r hr

/-- C2: starting from a table with at most one active row, each registry
operation (`register_model`, `set_active_model`, `remove_model`) preserves
the at-most-one-active invariant, and a successful `set_active_model mid`
on a table with unique ids leaves exactly the row with id `mid` active. -/
theorem registry_at_most_one_active_invariant (s : List DBModel)
    (hinv : atMostOneActive s) :
    (∀ model_id nm model_type provider backend model_path size_mb
        is_base_model metadata created_at,
      atMostOneActive
        (register_model s model_id nm model_type provider backend
          model_path size_mb is_base_model metadata created_at).2) ∧
    (∀ model_id, atMostOneActive (set_active_model s model_id).2) ∧
    (∀ fsE model_id, atMostOneActive (remove_model fsE s model_id).2) ∧
    (∀ model_id s2, (s.map (fun r => r.id)).Nodup →
      set_active_model s model_id = (true, s2) →
      (∃ r ∈ s2, r.id = model_id ∧ r.is_active = true) ∧
      ∀ r ∈ s2, (r.is_active = true ↔ r.id = model_id)) := by
  refine ⟨?_, ?_, ?_, ?_⟩
  · intro model_id nm model_type provider backend model_path size_mb
      is_base_model metadata created_at
    unfold register_model
    cases hf : s.find? (fun r => r.id == model_id) with
    | some existing => exact hinv
    | none =>
      show atMostOneActive (s ++ [_])
      unfold atMostOneActive at hinv ⊢
      simp only [List.countP_append, List.countP_cons, List.countP_nil]
      simpa using hinv
  · intro model_id
    unfold set_active_model
    cases hf : activateFirst (deactivateAll s) model_id with
    | none => exact hinv
    | some s2 =>
      show atMostOneActive s2
      unfold atMostOneActive
      have h1 := countP_activateFirst model_id (deactivateAll s) s2 hf
      have h2 := countP_deactivateAll s
      omega
  · intro fsE model_id
    unfold remove_model
    cases hf : s.find? (fun r => r.id == model_id) with
    | none => exact hinv
    | some m =>
      by_cases hb : m.is_base_model
      · simpa [hb] using hinv
      · simp only [hb]
        show atMostOneActive (List.eraseP _ s)
        unfold atMostOneActive at hinv ⊢
        exact le_trans (countP_eraseP_le _ _ s) hinv
  · intro model_id s2 hnd hset
    unfold set_active_model at hset
    cases hf : activateFirst (deactivateAll s) model_id with
    | none => rw [hf] at hset; simp at hset
    | some d2 =>
      rw [hf] at hset
      have hd2 : d2 = s2 := congrArg Prod.snd hset
      subst hd2
      refine activateFirst_exact model_id (deactivateAll s) d2 ?_ ?_ hf
      · intro r hr
        rcases List.mem_map.mp hr with ⟨a, _, rfl⟩
        rfl
      · rw [map_id_deactivateAll]
        exact hnd

/-- Witness for C2 on a two-record registry: registration, activation of
"m2" and removal of "m1" all preserve the invariant, and after activating
"m2" exactly the row with id "m2" is active. -/
theorem registry_at_most_one_active_invariant_witness :
    atMostOneActive
      (register_model
        [⟨"m1", "m1", "local", "hf", 1, "llama.cpp", false, false, "/a", [], 0⟩,
         ⟨"m2", "m2", "local", "hf", 2, "llama.cpp", false, false, "/b", [], 0⟩]
        "m3" "n" "local" "hf" "llama.cpp" "/c" 3 false [] 0).2 ∧
    atMostOneActive
      (set_active_model
        [⟨"m1", "m1", "local", "hf", 1, "llama.cpp", false, false, "/a", [], 0⟩,
         ⟨"m2", "m2", "local", "hf", 2, "llama.cpp", false, false, "/b", [], 0⟩]
        "m2").2 ∧
    atMostOneActive
      (remove_model (fun _ => false)
        [⟨"m1", "m1", "local", "hf", 1, "llama.cpp", false, false, "/a", [], 0⟩,
         ⟨"m2", "m2", "local", "hf", 2, "llama.cpp", false, false, "/b", [], 0⟩]
        "m1").2 ∧
    ((∃ r ∈ (set_active_model
        [⟨"m1", "m1", "local", "hf", 1, "llama.cpp", false, false, "/a", [], 0⟩,
         ⟨"m2", "m2", "local", "hf", 2, "llama.cpp", false, false, "/b", [], 0⟩]
        "m2").2, r.id = "m2" ∧ r.is_active = true) ∧
     ∀ r ∈ (set_active_model
        [⟨"m1", "m1", "local", "hf", 1, "llama.cpp", false, false, "/a", [], 0⟩,
         ⟨"m2", "m2", "local", "hf", 2, "llama.cpp", false, false, "/b", [], 0⟩]
        "m2").2, (r.is_active = true ↔ r.id = "m2")) :=
  ⟨(registry_at_most_one_active_invariant _ (by decide)).1
      "m3" "n" "local" "hf" "llama.cpp" "/c" 3 false [] 0,
   (registry_at_most_one_active_invariant _ (by decide)).2.1 "m2",
   (registry_at_most_one_active_invariant _ (by decide)).2.2.1
      (fun _ => false) "m1",
   (registry_at_most_one_active_invariant
      [⟨"m1", "m1", "local", "hf", 1, "llama.cpp", false, false, "/a", [], 0⟩,
       ⟨"m2", "m2", "local", "hf", 2, "llama.cpp", false, false, "/b", [], 0⟩]
      (by decide)).2.2.2 "m2"
      (set_active_model
        [⟨"m1", "m1", "local", "hf", 1, "llama.cpp", false, false, "/a", [], 0⟩,
         ⟨"m2", "m2", "local", "hf", 2, "llama.cpp", false, false, "/b", [], 0⟩]
        "m2").2
      (by decide) (by decide)⟩

/-- C7: registering an id that already exists returns the existing record
unchanged — none of its fields are overwritten with the new arguments —
and the registry state is unchanged. -/
theorem register_idempotent (s : List DBModel) (existing : DBModel)
    (model_id nm model_type provider backend model_path : String)
    (size_mb : ℚ) (is_base_model : Bool)
    (metadata : List (String × String)) (created_at : Nat)
    (hfind : s.find? (fun r => r.id == model_id) = Option.some existing) :
    register_model s model_id nm model_type provider backend model_path
        size_mb is_base_model metadata created_at = (existing, s) := by
  unfold register_model
  rw [hfind]

/-- Witness for C7: re-registering "m1" with entirely different field
values returns the original record and leaves the registry alone. -/
theorem register_idempotent_witness :
    register_model
        [{ id := "m1", name := "orig", type := "local", provider := "hf",
           size_mb := 10, backend := "llama.cpp", is_active := false,
           is_base_model := false, model_path := "/m1.gguf",
           metadata_json := [], created_at := 0 }]
        "m1" "other" "cloud" "openai" "api" "/new" 99 true
        [("role", "system_intent")] 7 =
      ({ id := "m1", name := "orig", type := "local", provider := "hf",
         size_mb := 10, backend := "llama.cpp", is_active := false,
         is_base_model := false, model_path := "/m1.gguf",
         metadata_json := [], created_at := 0 },
       [{ id := "m1", name := "orig", type := "local", provider := "hf",
          size_mb := 10, backend := "llama.cpp", is_active := false,
          is_base_model := false, model_path := "/m1.gguf",
          metadata_json := [], created_at := 0 }]) :=
  register_idempotent _ _ "m1" "other" "cloud" "openai" "api" "/new" 99 true
    [("role", "system_intent")] 7 (by decide)

/-! ## Claims about the inference engine and the download stream -/

/-- C6: calling `generate` on an id that is not loaded fails with the
"model not loaded" error, and the loaded-handle table is unchanged: no
handle is created and `is_loaded` still reports false afterwards. -/
theorem generate_not_loaded_error (eng : InferenceEngine)
    (model_id : String) (output : LlamaOutput) (start_time end_time : ℚ)
    (stream : Bool) (h : is_loaded eng model_id = false) :
    generate eng model_id output start_time end_time stream =
      (GenReturn.notLoaded ("Model " ++ model_id ++ " not loaded"), eng) ∧
    is_loaded
      (generate eng model_id output start_time end_time stream).2
      model_id = false := by
  have hres : generate eng model_id output start_time end_time stream =
      (GenReturn.notLoaded ("Model " ++ model_id ++ " not loaded"), eng) := by
    unfold generate
    rw [h]
    simp
  exact ⟨hres, by rw [hres]; exact h⟩

/-- Witness for C6: the spec's scenario D, a dispatcher that has loaded
only "other" receives `generate` for "m1". -/
theorem generate_not_loaded_error_witness :
    generate ⟨[("other", 7)]⟩ "m1" ⟨"hi", 3⟩ 0 1 false =
      (GenReturn.notLoaded "Model m1 not loaded", ⟨[("other", 7)]⟩) ∧
    is_loaded (generate ⟨[("other", 7)]⟩ "m1" ⟨"hi", 3⟩ 0 1 false).2
      "m1" = false :=
  generate_not_loaded_error ⟨[("other", 7)]⟩ "m1" ⟨"hi", 3⟩ 0 1 false
    (by decide)

/-- C9: a non-streaming `generate` on a loaded model always returns
metrics carrying latency, token count and throughput, and when the
measured elapsed time is zero the reported `tokens_per_sec` is exactly 0
instead of a division by zero. -/
theorem tokens_per_sec_zero_elapsed (eng : InferenceEngine)
    (model_id : String) (output : LlamaOutput) (t : ℚ)
    (h : is_loaded eng model_id = true) :
    generate eng model_id output t t false =
      (GenReturn.result output.text
        { latency_ms := 0
          tokens_generated := output.completion_tokens
          tokens_per_sec := 0 }, eng) := by
  unfold generate
  rw [h]
  simp [round2]

/-- Witness for C9 on a loaded model with both time reads equal. -/
theorem tokens_per_sec_zero_elapsed_witness :
    generate ⟨[("m1", 7)]⟩ "m1" ⟨"hi", 3⟩ 5 5 false =
      (GenReturn.result "hi"
        { latency_ms := 0, tokens_generated := 3, tokens_per_sec := 0 },
       ⟨[("m1", 7)]⟩) :=
  tokens_per_sec_zero_elapsed ⟨[("m1", 7)]⟩ "m1" ⟨"hi", 3⟩ 5 (by decide)

/-- Every run of the monitor loop ends in exactly one terminal event. -/
theorem countP_monitorLoop (ok : Bool) :
    ∀ polls, (monitorLoop polls ok).countP isTerminalEvent = 1 := by
  intro polls
  induction polls with
  | nil => cases ok <;> rfl
  | cons p rest ih =>
    obtain ⟨d, f⟩ := p
    cases d
    · cases f
      · simpa [monitorLoop, List.countP_cons, isTerminalEvent] using ih
      · cases ok <;> rfl
    · cases ok <;> rfl

/-- If the loop observes the cancel flag, the run is downloading events
followed by the single cancelled terminal event. -/
theorem monitorLoop_cancelObserved (ok : Bool) :
    ∀ polls, cancelObserved polls = true →
      ∃ k, monitorLoop polls ok =
        List.replicate k StreamEvent.downloading ++
          [StreamEvent.cancelled] := by
  intro polls
  induction polls with
  | nil => intro h; simp [cancelObserved] at h
  | cons p rest ih =>
    obtain ⟨d, f⟩ := p
    intro h
    cases d
    · cases f
      · simp only [cancelObserved, if_neg Bool.false_ne_true] at h
        obtain ⟨k, hk⟩ := ih (by simpa using h)
        exact ⟨k + 1, by simp [monitorLoop, hk, List.replicate_succ]⟩
      · exact ⟨0, by simp [monitorLoop]⟩
    · simp [cancelObserved] at h

/-- C3: every run of the progress stream delivers exactly one terminal
event; and once cancellation is observed by the monitor loop, the stream
is downloading events followed only by the single cancelled terminal
event — no complete event and no further downloading events after it. -/
theorem pull_stream_cancellation_terminality (polls : List (Bool × Bool))
    (ok : Bool) :
    (pull_model_stream polls ok).countP isTerminalEvent = 1 ∧
    (cancelObserved polls = true →
      (∃ k, pull_model_stream polls ok =
        List.replicate k StreamEvent.downloading ++
          [StreamEvent.cancelled]) ∧
      StreamEvent.complete ∉ pull_model_stream polls ok) := by
  constructor
  · simp [pull_model_stream, List.countP_cons, isTerminalEvent,
      countP_monitorLoop ok polls]
  · intro h
    obtain ⟨k, hk⟩ := monitorLoop_cancelObserved ok polls h
    refine ⟨⟨k + 1, ?_⟩, ?_⟩
    · simp [pull_model_stream, hk, List.replicate_succ]
    · simp [pull_model_stream, hk, List.mem_replicate]

/-- Witness for C3: a run with one ordinary poll, then a poll observing
the cancel flag while the transfer is still in flight. -/
theorem pull_stream_cancellation_terminality_witness :
    (pull_model_stream [(false, false), (false, true)] true).countP
        isTerminalEvent = 1 ∧
    ((∃ k, pull_model_stream [(false, false), (false, true)] true =
        List.replicate k StreamEvent.downloading ++
          [StreamEvent.cancelled]) ∧
      StreamEvent.complete ∉
        pull_model_stream [(false, false), (false, true)] true) :=
  ⟨(pull_stream_cancellation_terminality [(false, false), (false, true)]
      true).1,
   (pull_stream_cancellation_terminality [(false, false), (false, true)]
      true).2 (by decide)⟩

